import Mathlib

/-!
Shallow embedding of the network-modification subsystem of the repository:
`pysar/modify_network.py` and `pysar/utils/datetime.py`.

Python strings are embedded as `List Char` (`PyStr`): the source only
indexes, slices, splits, compares and sorts them, and each of those
operations has its direct `List` counterpart (Python's string ordering is
lexicographic on code points, which is the lexicographic order on
`List Char`).  Floating-point attribute values (coherence, baselines,
thresholds) are embedded as `ℚ`: the source only compares them with
`<`, `>`, `>=`, and those comparisons on the decimal literals involved
coincide with the rational ones.
-/

/-- A Python string, character by character. -/
abbrev PyStr := List Char

deriving instance DecidableEq for Except

/-! ## pysar/utils/datetime.py -/

/-- Source function `yymmdd2yyyymmdd` (datetime.py lines 40-43): prepend
the century, `19` when the first character is `9`, else `20`.  The source
indexes `date[0]`; it is only ever invoked on strings of length 6. -/
def yymmdd2yyyymmdd (date : PyStr) : PyStr :=
  if date.head? = some '9' then '1' :: '9' :: date else '2' :: '0' :: date

/-- Source function `yyyymmdd` (datetime.py lines 46-58), string branch:
a 6-character input is expanded via the century rule; ANY other input is
returned unchanged (no length or digit validation exists in the source). -/
def yyyymmdd (dates : PyStr) : PyStr :=
  if dates.length = 6 then yymmdd2yyyymmdd dates else dates

/-- Source function `yymmdd` (datetime.py lines 61-73), string branch:
an 8-character input is sliced to `date[2:8]`; any other input is
returned unchanged. -/
def yymmdd (dates : PyStr) : PyStr :=
  if dates.length = 8 then (dates.drop 2).take 6 else dates

/-! ## Python idioms used by modify_network.py -/

/-- Python `sorted(list(set(l)))`: de-duplicate, then sort ascending. -/
def pySortedSet {α : Type} [LinearOrder α] (l : List α) : List α :=
  l.dedup.insertionSort (· ≤ ·)

/-- Python `sorted(list(set(a) - set(b)))`. -/
def sortedSetDiff (a b : List PyStr) : List PyStr :=
  pySortedSet (a.filter (fun x => x ∉ b))

/-- Python `sorted(list(set(a) - set(b) - set(c)))`. -/
def sortedSetDiff2 (a b c : List PyStr) : List PyStr :=
  pySortedSet ((a.filter (fun x => x ∉ b)).filter (fun x => x ∉ c))

/-- Numeric value of a list of decimal digit characters. -/
def digitsToNat (l : List Char) : Nat :=
  l.foldl (fun n c => 10 * n + (c.toNat - '0'.toNat)) 0

/-- Python `int(s)` on the string forms this program feeds it (an
optional minus sign followed by decimal digits); `none` models the
`ValueError` Python raises otherwise. -/
def pyInt? (s : PyStr) : Option Int :=
  match s with
  | '-' :: rest =>
      if !rest.isEmpty && rest.all Char.isDigit then some (-(digitsToNat rest : Int))
      else none
  | _ =>
      if !s.isEmpty && s.all Char.isDigit then some ((digitsToNat s : Nat) : Int)
      else none

/-- Python `int(s)` where the caller guarantees a numeric string (the
date tokens of the stack's `date12` identifiers); out of that domain
Python raises, here we default to 0. -/
def toIntD (s : PyStr) : Int :=
  (pyInt? s).getD 0

theorem mem_pySortedSet {α : Type} [LinearOrder α] {l : List α} {x : α} :
    x ∈ pySortedSet l ↔ x ∈ l := by
  unfold pySortedSet
  rw [List.mem_insertionSort, List.mem_dedup]

theorem pySortedSet_sorted {α : Type} [LinearOrder α] (l : List α) :
    List.Sorted (· ≤ ·) (pySortedSet l) :=
  List.sorted_insertionSort _ _

theorem pySortedSet_nodup {α : Type} [LinearOrder α] (l : List α) :
    (pySortedSet l).Nodup :=
  ((List.perm_insertionSort _ _).nodup_iff).mpr l.nodup_dedup

/-! ## pysar/modify_network.py : data model

The `ifgramStack` storage object is an external collaborator (HDF5 file);
the fields below are the ones `modify_network.py` reads from it.
`dropIfgram` is the persisted per-pair boolean dataset; in this code base
`dropIfgram = True` means the pair is KEPT (see the `--reset` help text,
modify_network.py line 55, and `get_date12_list(dropIfgram=True)` which
returns the kept pairs).  The spec's "dropped flag" is its negation. -/

structure IfgramStack where
  date12List : List PyStr
  tbaseIfgram : List ℚ
  pbaseIfgram : List ℚ
  dropIfgram : List Bool
  deriving Repr, DecidableEq

/-- Modelled from the spec: the `allPairs`/`droppedPairs` storage
contract (spec section 6) and `obj.get_date12_list(dropIfgram=True)`
(the kept pairs), whose implementation lives in `pysar/objects`, outside
the given sources: the pairs whose persisted `dropIfgram` flag is True. -/
def get_date12_list_kept (obj : IfgramStack) : List PyStr :=
  ((obj.date12List.zip obj.dropIfgram).filter (fun p => p.2)).map (fun p => p.1)

/-- Source variable `date12ListDropped` (modify_network.py line 383): the
currently persisted dropped set,
`sorted(list(set(date12ListAll) - set(date12ListKept)))`. -/
def date12ListDropped (obj : IfgramStack) : List PyStr :=
  sortedSetDiff obj.date12List (get_date12_list_kept obj)

/-- The filter criteria carried by the `inps` namespace that
`get_date12_to_drop` reads.  External reads are replaced by their
results ("oracles"): `referenceFile` holds the reference stack's kept
date12 list (`ifgramStack(inps.referenceFile).get_date12_list(dropIfgram=True)`,
line 283) rather than a file name; `none` models a falsy
(absent/empty) option.  `excludeIfgIndex` is the already-parsed index
list produced by `read_input_index_list` in `cmdLineParse` (line 108);
`startDate`/`endDate` hold `int(...)` of the option when truthy. -/
structure Inps where
  referenceFile : Option (List PyStr)
  coherenceBased : Bool
  keepMinSpanTree : Bool
  minCoherence : ℚ
  tempBaseMax : Option ℚ
  perpBaseMax : Option ℚ
  excludeIfgIndex : List Nat
  excludeDate : List PyStr
  startDate : Option Int
  endDate : Option Int
  manual : Bool
  reset : Bool
  deriving Repr, DecidableEq

/-! ## pysar/modify_network.py : the drop rules of get_date12_to_drop -/

/-- Rule 1 (lines 282-289): pairs of the stack not kept in the reference
file, `sorted(list(set(date12ListAll) - set(date12_to_keep)))`. -/
def refDropList (all : List PyStr) (referenceFile : Option (List PyStr)) : List PyStr :=
  match referenceFile with
  | some date12_to_keep => sortedSetDiff all date12_to_keep
  | none => []

/-- Source line 305:
`coh_date12_list = list(np.array(date12ListAll)[np.array(cohList) >= inps.minCoherence])`,
with `cohList` the spatial-average coherence parallel to `date12ListAll`
(external collaborator `ut.spatial_average`, line 303). -/
def coh_date12_list (all : List PyStr) (cohList : List ℚ) (minCoherence : ℚ) : List PyStr :=
  ((all.zip cohList).filter (fun p => minCoherence ≤ p.2)).map (fun p => p.1)

/-- Rule 2.1 (lines 292-318): the coherence-based contribution.
`mst` is the result of the external call
`pnet.threshold_coherence_based_mst(date12ListAll, cohList)` (line 311);
it is used only when `keepMinSpanTree` is set, else `mst_date12_list = []`
(line 314).  The contribution is
`sorted(list(set(date12ListAll) - set(coh_date12_list) - set(mst_date12_list)))`
(line 316). -/
def cohRuleDropList (all : List PyStr) (coherenceBased keepMinSpanTree : Bool)
    (minCoherence : ℚ) (cohList : List ℚ) (mst : List PyStr) : List PyStr :=
  if coherenceBased then
    let ck := coh_date12_list all cohList minCoherence
    let mst_date12_list := if keepMinSpanTree then mst else []
    sortedSetDiff2 all ck mst_date12_list
  else []

/-- Rule 2.2 (lines 321-326): pairs with
`np.abs(obj.tbaseIfgram) > inps.tempBaseMax`.  The Python guard
`if inps.tempBaseMax:` is falsy for `None` and for `0.0`. -/
def tbaseDropList (all : List PyStr) (tbase : List ℚ) (tempBaseMax : Option ℚ) : List PyStr :=
  match tempBaseMax with
  | some t =>
      if t ≠ 0 then ((all.zip tbase).filter (fun p => t < |p.2|)).map (fun p => p.1) else []
  | none => []

/-- Rule 2.3 (lines 329-334): pairs with
`np.abs(obj.pbaseIfgram) > inps.perpBaseMax`, same truthiness guard. -/
def pbaseDropList (all : List PyStr) (pbase : List ℚ) (perpBaseMax : Option ℚ) : List PyStr :=
  match perpBaseMax with
  | some t =>
      if t ≠ 0 then ((all.zip pbase).filter (fun p => t < |p.2|)).map (fun p => p.1) else []
  | none => []

/-- Rule 2.4 (lines 337-341): `[date12ListAll[i] for i in inps.excludeIfgIndex]`.
The indices were clipped upstream to `i < numIfgramOrig`
(`read_input_index_list`, line 130), so the source's direct indexing never
faults; an out-of-range index is modelled as skipped. -/
def idxDropList (all : List PyStr) (excludeIfgIndex : List Nat) : List PyStr :=
  excludeIfgIndex.filterMap (fun i => all.get? i)

/-- Rule 2.5 (line 345): pairs one of whose endpoint dates is in
`inps.excludeDate`:
`[i for i in date12ListAll if any(j in inps.excludeDate for j in i.split('_'))]`.
NOTE: when this rule is enabled the source then raises `NameError` on
line 348 (`templist` is undefined); see `get_date12_to_drop` below. -/
def excludeDateDropList (all : List PyStr) (excludeDate : List PyStr) : List PyStr :=
  all.filter (fun i => (i.splitOn '_').any (fun j => j ∈ excludeDate))

/-- Rule 2.6 (lines 351-356): pairs with an endpoint date earlier than
`startDate`:
`[i for i in date12ListAll if any(int(j) < minDate for j in i.split('_'))]`. -/
def startDateDropList (all : List PyStr) (startDate : Option Int) : List PyStr :=
  match startDate with
  | some minDate => all.filter (fun i => (i.splitOn '_').any (fun j => toIntD j < minDate))
  | none => []

/-- Rule 2.7 (lines 359-364): pairs with an endpoint date later than
`endDate`. -/
def endDateDropList (all : List PyStr) (endDate : Option Int) : List PyStr :=
  match endDate with
  | some maxDate => all.filter (fun i => (i.splitOn '_').any (fun j => maxDate < toIntD j))
  | none => []

/-! ## pysar/modify_network.py : assembling get_date12_to_drop -/

/-- Step 3 (lines 366-373): the manual-selection contribution.
`manualSel` is the return value of the external interactive collaborator
`manual_select_pairs_to_remove` (lines 218-265): `none` models its
`None` return when the user answers no to the proceed prompt (lines
262-264, the abort signal); `some sel` models a finished click selection.
When manual selection is off the contribution is empty.  The selection
is filtered to pairs existing in the stack
(`tempList = [i for i in tempList if i in date12ListAll]`, line 371). -/
def manualPart (all : List PyStr) (manual : Bool) (manualSel : Option (List PyStr)) :
    Option (List PyStr) :=
  if manual then manualSel.map (fun sel => sel.filter (fun i => i ∈ all)) else some []

/-- Accumulated `date12_to_drop` after rules 1-2.7 (lines 279-364), in
source order. -/
def preManualAcc (obj : IfgramStack) (inps : Inps) (cohList : List ℚ) (mst : List PyStr) :
    List PyStr :=
  refDropList obj.date12List inps.referenceFile ++
  cohRuleDropList obj.date12List inps.coherenceBased inps.keepMinSpanTree
    inps.minCoherence cohList mst ++
  tbaseDropList obj.date12List obj.tbaseIfgram inps.tempBaseMax ++
  pbaseDropList obj.date12List obj.pbaseIfgram inps.perpBaseMax ++
  idxDropList obj.date12List inps.excludeIfgIndex ++
  excludeDateDropList obj.date12List inps.excludeDate ++
  startDateDropList obj.date12List inps.startDate ++
  endDateDropList obj.date12List inps.endDate

/-- The full accumulated `date12_to_drop` list as of line 375; `none`
when the manual collaborator signalled abort (lines 369-370 return
`None` for the whole call). -/
def accDropList (obj : IfgramStack) (inps : Inps) (cohList : List ℚ) (mst : List PyStr)
    (manualSel : Option (List PyStr)) : Option (List PyStr) :=
  match manualPart obj.date12List inps.manual manualSel with
  | none => none
  | some mp => some (preManualAcc obj inps cohList mst ++ mp)

/-- Step 4 (lines 375-387): de-duplicate and sort the drop list, compare
with the currently persisted dropped set, and signal `none` (no change)
on equality. -/
def finalizeDropList (obj : IfgramStack) (acc : List PyStr) : Option (List PyStr) :=
  let date12_to_drop := pySortedSet acc
  if date12_to_drop = date12ListDropped obj then none else some date12_to_drop

/-- Source function `get_date12_to_drop` (lines 268-387).  Returns
`Except.error _` for the `NameError` the source raises on line 348
(`print(... .format(len(templist), tempList))` with `templist` never
defined) whenever the date-exclusion branch `if inps.excludeDate:` is
entered: the branch appends its contribution on line 346 and then
always raises, so no later rule runs and nothing is returned.  The
error test is hoisted before the accumulation, which is semantically
identical since the exception discards the accumulator.
Otherwise returns `Except.ok none` when the manual collaborator aborted
(line 370) or when the computed drop set equals the persisted one
(lines 384-386), and `Except.ok (some dropList)` otherwise. -/
def get_date12_to_drop (obj : IfgramStack) (inps : Inps) (cohList : List ℚ)
    (mst : List PyStr) (manualSel : Option (List PyStr)) :
    Except String (Option (List PyStr)) :=
  if inps.excludeDate ≠ [] then
    Except.error "NameError: name templist is not defined"
  else
    match accDropList obj inps cohList mst manualSel with
    | none => Except.ok none
    | some acc => Except.ok (finalizeDropList obj acc)

/-- Write-back decision of `main` (lines 408-417): the stack file is
updated only when `get_date12_to_drop` returned an actual list
(`if inps.date12_to_drop is not None:`, line 410). -/
def mainWritesBack (date12_to_drop : Option (List PyStr)) : Bool :=
  date12_to_drop.isSome

/-! ## pysar/modify_network.py : reset_network (lines 190-201) -/

/-- Source function `reset_network`: if `np.all(obj.dropIfgram)` holds,
report "already True, no need to reset" and leave the file untouched
(the returned Bool is this already-reset report); otherwise write
`f['dropIfgram'][:] = True`.  (After the write the source additionally
calls `ut.touch` with the undefined name `inps`, a crash after the
persisted flags are committed; it does not change the flag state
modelled here.) -/
def reset_network (obj : IfgramStack) : IfgramStack × Bool :=
  if obj.dropIfgram.all (fun b => b) then
    (obj, true)
  else
    ({ obj with dropIfgram := obj.dropIfgram.map (fun _ => true) }, false)

/-- The spec's per-pair `dropped` flags of a stack: negation of the
stored `dropIfgram` keep-flags. -/
def droppedFlags (obj : IfgramStack) : List Bool :=
  obj.dropIfgram.map (fun b => !b)

/-! ## pysar/modify_network.py : read_input_index_list (lines 114-132) -/

/-- Source line 118, `c = sorted([int(i) for i in idx.split(':')])`:
split the token on `:` and parse every part as an integer, sorted
ascending; `none` models the `ValueError` Python's `int` raises on a
non-numeric part. -/
def parseTokenInts (idx : PyStr) : Option (List Int) :=
  let parts := (idx.splitOn ':').map pyInt?
  if parts.all Option.isSome then some ((parts.filterMap id).insertionSort (· ≤ ·))
  else none

/-- Python `range(a, b+1)` over integers. -/
def intRangeIncl (a b : Int) : List Int :=
  (List.range (b + 1 - a).toNat).map (fun k => a + (k : Int))

/-- One loop iteration of `read_input_index_list` (lines 117-124): a
two-element token contributes the inclusive range, a one-element token
contributes the integer, any longer token is reported
("Unrecoganized input") and skipped; a non-numeric part is a fatal
`ValueError` (`none`). -/
def tokenIndices (idx : PyStr) : Option (List Int) :=
  match parseTokenInts idx with
  | none => none
  | some c =>
    match c with
    | [a, b] => some (intRangeIncl a b)
    | [a] => some [a]
    | _ => some []

/-- The loop of `read_input_index_list` over all tokens, stopping at the
first `ValueError`. -/
def collectTokenIndices : List PyStr → Except String (List Int)
  | [] => Except.ok []
  | idx :: rest =>
    match tokenIndices idx with
    | none => Except.error "ValueError: invalid literal for int"
    | some l =>
      match collectTokenIndices rest with
      | Except.error e => Except.error e
      | Except.ok ls => Except.ok (l ++ ls)

/-- Source function `read_input_index_list` (lines 114-132): accumulate
all token contributions, `sorted(set(...))`, then, when a stack file is
given, keep only `i < obj.numIfgramOrig` (`numIfgramOrig` is read from
the external stack object). -/
def read_input_index_list (idxList : List PyStr) (numIfgramOrig : Option Int) :
    Except String (List Int) :=
  match collectTokenIndices idxList with
  | Except.error e => Except.error e
  | Except.ok out =>
    let idxListOut := pySortedSet out
    match numIfgramOrig with
    | some n => Except.ok (idxListOut.filter (fun i => i < n))
    | none => Except.ok idxListOut

/-! ## pysar/modify_network.py : template auto-reset and main dispatch -/

/-- Python truthiness of an optional float: `None` and `0.0` are falsy. -/
def truthyOptQ (o : Option ℚ) : Bool :=
  match o with
  | some t => decide (t ≠ 0)
  | none => false

/-- The `all(not i for i in [...])` test of lines 180-182 and 396-398:
no drop criterion (and neither reset nor manual) is enabled, fields
listed in source order. -/
def noDropOption (inps : Inps) : Bool :=
  !inps.referenceFile.isSome && !truthyOptQ inps.tempBaseMax &&
  !truthyOptQ inps.perpBaseMax && inps.excludeIfgIndex.isEmpty &&
  inps.excludeDate.isEmpty && !inps.coherenceBased &&
  !inps.startDate.isSome && !inps.endDate.isSome &&
  !inps.reset && !inps.manual

/-- Tail of `read_template2inps` (lines 179-186): with a template file
present, if no drop option was found, turn `--reset` on.  The
key-by-key template overlay above it (lines 144-177) is external
parsing; its result is the incoming `inps`. -/
def read_template2inps_tail (inps : Inps) : Inps :=
  if noDropOption inps then { inps with reset := true } else inps

inductive MainAction where
  | exitNoOption
  | doReset
  | modifyNetwork
  deriving Repr, DecidableEq

/-- Control flow of `main` (lines 391-408): apply the template tail when
a template file was given, exit when still no option is enabled
(lines 396-401), run `reset_network` when reset is on (lines 403-406),
else proceed to `get_date12_to_drop`. -/
def mainDispatch (inps : Inps) (hasTemplate : Bool) : MainAction :=
  let inps2 := if hasTemplate then read_template2inps_tail inps else inps
  if noDropOption inps2 then MainAction.exitNoOption
  else if inps2.reset then MainAction.doReset
  else MainAction.modifyNetwork

/-! ## Claims about the date model (C6, C8) -/

/-- C6 counterexample: the claim says `normalizeDate` (source `yyyymmdd`)
"fails with a FormatError on input of any other length or containing
non-numeric characters".  The source function has no failure path at all
for string input: a 4-character input is returned unchanged, and a
6-character non-numeric input is happily century-expanded. -/
theorem C6_counterexample :
    yyyymmdd "1234".toList = "1234".toList ∧
    yyyymmdd "abcdef".toList = "20abcdef".toList := by decide

/-- C6 amended: `normalizeDate` (source `yyyymmdd`) expands a 6-character
input by the century rule (first character `9` gives prefix 19, otherwise
prefix 20) and returns input of any other length unchanged; it performs
no numeric validation and never fails. -/
theorem C6_century_rule (d : PyStr) :
    (d.length = 6 →
      (d.head? = some '9' → yyyymmdd d = '1' :: '9' :: d) ∧
      (d.head? ≠ some '9' → yyyymmdd d = '2' :: '0' :: d)) ∧
    (d.length ≠ 6 → yyyymmdd d = d) := by
  constructor
  · intro h6
    constructor <;> intro h9 <;> simp [yyyymmdd, h6, yymmdd2yyyymmdd, h9]
  · intro h6
    simp [yyyymmdd, h6]

theorem C6_century_rule_witness :
    yyyymmdd "910230".toList = '1' :: '9' :: "910230".toList :=
  ((C6_century_rule "910230".toList).1 (by decide)).1 (by decide)

/-- C8: for every 6-character date string `d`, normalizing
(`yyyymmdd`), contracting back to 6 characters (`yymmdd`) and
normalizing again yields the same 8-character date as normalizing once:
round-trip stability through century expansion. -/
theorem C8_century_roundtrip (d : PyStr) (h : d.length = 6) :
    yyyymmdd (yymmdd (yyyymmdd d)) = yyyymmdd d := by
  have hy : yyyymmdd d = yymmdd2yyyymmdd d := by simp [yyyymmdd, h]
  have hback : yymmdd (yymmdd2yyyymmdd d) = d := by
    unfold yymmdd2yyyymmdd
    by_cases h9 : d.head? = some '9' <;>
      simp [h9, yymmdd, h, List.take_of_length_le, h.le]
  rw [hy, hback, hy]

theorem C8_century_roundtrip_witness :
    ("080101".toList.length = 6) ∧
      yyyymmdd (yymmdd (yyyymmdd "080101".toList)) = yyyymmdd "080101".toList :=
  ⟨by decide, C8_century_roundtrip "080101".toList (by decide)⟩

/-! ## Claim about reset_network (C3) -/

/-- C3: `reset_network` sets every pair's dropped flag (the negation of
the stored `dropIfgram` keep-flag) to false; it is a no-op reporting
already-reset when all dropped flags are already false; and it is
idempotent: a second reset leaves the persisted state of the first
unchanged (and reports already-reset). -/
theorem C3_reset_semantics (obj : IfgramStack) :
    (∀ b ∈ droppedFlags (reset_network obj).1, b = false) ∧
    ((∀ b ∈ droppedFlags obj, b = false) → reset_network obj = (obj, true)) ∧
    reset_network (reset_network obj).1 = ((reset_network obj).1, true) := by
  have hfix : ∀ X : IfgramStack, X.dropIfgram.all (fun b => b) = true →
      reset_network X = (X, true) := by
    intro X hX
    unfold reset_network
    rw [if_pos hX]
  have key : ∀ b ∈ (reset_network obj).1.dropIfgram, b = true := by
    unfold reset_network
    split
    · rename_i hcond
      intro b hb
      exact List.all_eq_true.mp hcond b hb
    · intro b hb
      simp only [List.mem_map] at hb
      obtain ⟨a, _, ha⟩ := hb
      exact ha.symm
  refine ⟨?_, ?_, ?_⟩
  · intro b hb
    simp only [droppedFlags, List.mem_map] at hb
    obtain ⟨a, ha, hba⟩ := hb
    rw [← hba, key a ha]
    rfl
  · intro h
    apply hfix
    apply List.all_eq_true.mpr
    intro b hb
    have hmem : (!b) ∈ droppedFlags obj := by
      simp only [droppedFlags, List.mem_map]
      exact ⟨b, hb, rfl⟩
    have hfalse := h (!b) hmem
    simp only [Bool.not_eq_false'] at hfalse
    exact hfalse
  · exact hfix _ (List.all_eq_true.mpr key)

def objKeptAll : IfgramStack :=
  { date12List := ["20080101_20080201".toList], tbaseIfgram := [31]
    pbaseIfgram := [100], dropIfgram := [true] }

theorem C3_reset_semantics_witness :
    reset_network objKeptAll = (objKeptAll, true) :=
  (C3_reset_semantics objKeptAll).2.1 (by decide)

/-! ## Claim about the template auto-reset (C10) -/

/-- C10: when a template file is supplied and no drop criterion is
enabled (no reference file, no baseline limits, no exclusions, no
coherence-based rule, no date bounds, no reset, no manual selection),
`read_template2inps` turns the reset flag on, and `main` consequently
takes the reset path (restoring all pairs) instead of exiting. -/
theorem C10_template_auto_reset (inps : Inps) (h : noDropOption inps = true) :
    (read_template2inps_tail inps).reset = true ∧
    mainDispatch inps true = MainAction.doReset := by
  have ht : read_template2inps_tail inps = { inps with reset := true } := by
    unfold read_template2inps_tail
    rw [if_pos h]
  have hn : noDropOption { inps with reset := true } = false := by
    simp [noDropOption]
  refine ⟨by rw [ht], ?_⟩
  simp [mainDispatch, ht, hn]

def inpsOff : Inps :=
  { referenceFile := none, coherenceBased := false, keepMinSpanTree := true
    minCoherence := mkRat 7 10, tempBaseMax := none, perpBaseMax := none
    excludeIfgIndex := [], excludeDate := [], startDate := none, endDate := none
    manual := false, reset := false }

theorem C10_template_auto_reset_witness :
    (read_template2inps_tail inpsOff).reset = true ∧
    mainDispatch inpsOff true = MainAction.doReset :=
  C10_template_auto_reset inpsOff (by decide)

/-! ## Claim about the date-exclusion rule (C2) -/

def objOnePair : IfgramStack :=
  { date12List := ["20080101_20080201".toList], tbaseIfgram := [31]
    pbaseIfgram := [100], dropIfgram := [true] }

/-- C2: the date-exclusion rule's candidate list (line 345) is indeed the
pairs with an endpoint in the excluded-date set, but the source then
crashes: with `excludeDate = ['20080101']` on a one-pair stack, the
branch computes the right contribution and the run then raises
`NameError` (line 348 reads the never-defined name `templist`), so the
filtering run does NOT continue to produce a final drop set. -/
theorem C2_excludeDate_name_error :
    excludeDateDropList objOnePair.date12List ["20080101".toList] =
      ["20080101_20080201".toList] ∧
    get_date12_to_drop objOnePair
      { inpsOff with excludeDate := ["20080101".toList] } [] [] none =
      Except.error "NameError: name templist is not defined" := by decide

/-! ## Claim about the index-list parser (C5) -/

/-- C5 counterexample: the claim says the result is clipped to
`[0, pairCount)`; the source only filters `i < numIfgramOrig`
(line 130), so a negative index survives: token `-1` with 10 pairs
yields `[-1]`, which is not within `[0, 10)`. -/
theorem C5_counterexample :
    read_input_index_list ["-1".toList] (some 10) = Except.ok [-1] ∧
    ¬(0 ≤ (-1 : Int)) := by decide

theorem finalizeDropList_eq (obj : IfgramStack) (acc : List PyStr) :
    finalizeDropList obj acc =
      if pySortedSet acc = date12ListDropped obj then none
      else some (pySortedSet acc) := rfl

/-- C5 amended: the parser accepts bare integers and `a:b` ranges
(inclusive, endpoints in either order), returns a sorted de-duplicated
integer list, skips all-numeric tokens with more than one `:` with a
warning, and when a pair count is known keeps exactly the elements
strictly below the pair count (there is no lower clip at 0). -/
theorem C5_parser_behavior (idxList : List PyStr) (n : Int) (out : List Int)
    (h : read_input_index_list idxList (some n) = Except.ok out) :
    (List.Sorted (· ≤ ·) out ∧ out.Nodup ∧ ∀ x ∈ out, x < n) ∧
    read_input_index_list ["2".toList, "4:6".toList, "4:6".toList] none =
      Except.ok [2, 4, 5, 6] ∧
    read_input_index_list ["5:2".toList] none = Except.ok [2, 3, 4, 5] ∧
    read_input_index_list ["1:2:3".toList, "7".toList] none = Except.ok [7] := by
  refine ⟨?_, by decide, by decide, by decide⟩
  unfold read_input_index_list at h
  cases hc : collectTokenIndices idxList with
  | error e =>
    rw [hc] at h
    exact absurd h (by simp)
  | ok ls =>
    rw [hc] at h
    simp only [Except.ok.injEq] at h
    subst h
    refine ⟨?_, ?_, ?_⟩
    · exact (pySortedSet_sorted ls).filter _
    · exact (pySortedSet_nodup ls).filter _
    · intro x hx
      rw [List.mem_filter] at hx
      exact of_decide_eq_true hx.2

theorem C5_parser_behavior_witness :
    (List.Sorted (· ≤ ·) ([3] : List Int) ∧ ([3] : List Int).Nodup ∧
      ∀ x ∈ ([3] : List Int), x < 10) ∧
    read_input_index_list ["2".toList, "4:6".toList, "4:6".toList] none =
      Except.ok [2, 4, 5, 6] ∧
    read_input_index_list ["5:2".toList] none = Except.ok [2, 3, 4, 5] ∧
    read_input_index_list ["1:2:3".toList, "7".toList] none = Except.ok [7] :=
  C5_parser_behavior ["3".toList] 10 [3] (by decide)

/-! ## Claim about the coherence+MST rule (C1) -/

/-- C1: with the coherence-based rule enabled together with
keepMinSpanTree, the rule's drop contribution is exactly the full pair
set minus the pairs of coherence at least `minCoherence` minus the MST
pair set; in particular a pair that belongs to the MST is never dropped
by this rule, whatever its coherence. -/
theorem C1_coh_mst_rule (all : List PyStr) (cohList : List ℚ) (minCoherence : ℚ)
    (mst : List PyStr) (x : PyStr) :
    (x ∈ cohRuleDropList all true true minCoherence cohList mst ↔
      (x ∈ all ∧ x ∉ coh_date12_list all cohList minCoherence ∧ x ∉ mst)) ∧
    (x ∈ mst → x ∉ cohRuleDropList all true true minCoherence cohList mst) := by
  have hiff : x ∈ cohRuleDropList all true true minCoherence cohList mst ↔
      (x ∈ all ∧ x ∉ coh_date12_list all cohList minCoherence ∧ x ∉ mst) := by
    simp only [cohRuleDropList, sortedSetDiff2, if_true, mem_pySortedSet, List.mem_filter,
      decide_eq_true_eq, and_assoc]
  exact ⟨hiff, fun hm hd => (hiff.mp hd).2.2 hm⟩

/-- Witness for C1 on the spec's section-8 scenario: pair B
(20080201_20080301, coherence 0.4 < 0.7) belongs to the MST, and the
rule does not drop it. -/
theorem C1_coh_mst_rule_witness :
    "20080201_20080301".toList ∉
      cohRuleDropList
        ["20080101_20080201".toList, "20080201_20080301".toList, "20080101_20080301".toList]
        true true (mkRat 7 10) [mkRat 9 10, mkRat 4 10, mkRat 3 10]
        ["20080101_20080201".toList, "20080201_20080301".toList] :=
  (C1_coh_mst_rule _ _ _ _ _).2 (by decide)

/-! ## Claim about the no-change signal (C4) -/

/-- C4: when the run reaches step 4 (no date-exclusion crash, no manual
abort, so the accumulated drop list exists), the returned value is the
no-change signal `none` exactly when the sorted de-duplicated drop set
equals the currently persisted dropped set, and in that case `main`
skips the write-back; otherwise the new drop set is returned. -/
theorem C4_no_change_signal (obj : IfgramStack) (inps : Inps) (cohList : List ℚ)
    (mst : List PyStr) (manualSel : Option (List PyStr)) (acc : List PyStr)
    (hex : inps.excludeDate = [])
    (hacc : accDropList obj inps cohList mst manualSel = some acc) :
    (pySortedSet acc = date12ListDropped obj →
      get_date12_to_drop obj inps cohList mst manualSel = Except.ok none ∧
      mainWritesBack none = false) ∧
    (pySortedSet acc ≠ date12ListDropped obj →
      get_date12_to_drop obj inps cohList mst manualSel =
        Except.ok (some (pySortedSet acc))) := by
  have hget : get_date12_to_drop obj inps cohList mst manualSel =
      Except.ok (finalizeDropList obj acc) := by
    unfold get_date12_to_drop
    rw [if_neg (by simp [hex]), hacc]
  constructor
  · intro heq
    refine ⟨?_, rfl⟩
    rw [hget, finalizeDropList_eq, if_pos heq]
  · intro hne
    rw [hget, finalizeDropList_eq, if_neg hne]

theorem C4_no_change_signal_witness :
    get_date12_to_drop objKeptAll inpsOff [] [] none = Except.ok none ∧
    mainWritesBack none = false :=
  (C4_no_change_signal objKeptAll inpsOff [] [] none [] (by decide) (by decide)).1
    (by decide)

/-! ## Claim about the manual-selection rule (C7) -/

/-- C7: with manual selection enabled (and the run reaching it, i.e. no
date-exclusion crash): a collaborator abort (`none`) makes the whole
call return the `none` sentinel, discarding every other rule's
contribution; a returned selection is filtered to pairs existing in the
stack before being appended; and an empty selection is an intentional
empty contribution — the run proceeds to step 4 exactly as if manual
selection were disabled, rather than returning the abort sentinel. -/
theorem C7_manual_selection (obj : IfgramStack) (inps : Inps) (cohList : List ℚ)
    (mst : List PyStr) (sel : List PyStr)
    (hm : inps.manual = true) (hex : inps.excludeDate = []) :
    get_date12_to_drop obj inps cohList mst none = Except.ok none ∧
    get_date12_to_drop obj inps cohList mst (some sel) =
      Except.ok (finalizeDropList obj
        (preManualAcc obj inps cohList mst ++
          sel.filter (fun i => i ∈ obj.date12List))) ∧
    get_date12_to_drop obj inps cohList mst (some []) =
      get_date12_to_drop obj { inps with manual := false } cohList mst none := by
  have hni : ¬ inps.excludeDate ≠ [] := by simp [hex]
  refine ⟨?_, ?_, ?_⟩
  · unfold get_date12_to_drop
    rw [if_neg hni]
    simp [accDropList, manualPart, hm]
  · unfold get_date12_to_drop
    rw [if_neg hni]
    simp [accDropList, manualPart, hm]
  · unfold get_date12_to_drop
    rw [if_neg hni, if_neg (by simp [hex])]
    simp [accDropList, manualPart, hm, preManualAcc]

/-- Witness for C7 on a concrete stack: the abort propagates, a concrete
selection is filtered to existing pairs, and the empty selection equals
the manual-off run. -/
theorem C7_manual_selection_witness :
    get_date12_to_drop objOnePair { inpsOff with manual := true } [] [] none =
      Except.ok none ∧
    get_date12_to_drop objOnePair { inpsOff with manual := true } [] []
        (some ["20080101_20080201".toList, "19990101_19990202".toList]) =
      Except.ok (finalizeDropList objOnePair
        (preManualAcc objOnePair { inpsOff with manual := true } [] [] ++
          (["20080101_20080201".toList, "19990101_19990202".toList].filter
            (fun i => i ∈ objOnePair.date12List)))) ∧
    get_date12_to_drop objOnePair { inpsOff with manual := true } [] [] (some []) =
      get_date12_to_drop objOnePair
        { { inpsOff with manual := true } with manual := false } [] [] none :=
  C7_manual_selection objOnePair { inpsOff with manual := true } [] []
    ["20080101_20080201".toList, "19990101_19990202".toList] (by decide) (by decide)

/-! ## Claim about rule-union monotonicity (C9) -/

/-- Criteria ordering "c1 enables a subset of the rules of c2, all rule
parameters held fixed": every rule enabled in c1 is enabled in c2 with
the same parameter, and the shared coherence parameters agree. -/
structure InpsLE (c1 c2 : Inps) : Prop where
  minCoh : c1.minCoherence = c2.minCoherence
  keepMST : c1.keepMinSpanTree = c2.keepMinSpanTree
  ref : c1.referenceFile ≠ none → c1.referenceFile = c2.referenceFile
  coh : c1.coherenceBased = true → c2.coherenceBased = true
  tbase : c1.tempBaseMax ≠ none → c1.tempBaseMax = c2.tempBaseMax
  pbase : c1.perpBaseMax ≠ none → c1.perpBaseMax = c2.perpBaseMax
  idx : c1.excludeIfgIndex = [] ∨ c1.excludeIfgIndex = c2.excludeIfgIndex
  exDate : c1.excludeDate = [] ∨ c1.excludeDate = c2.excludeDate
  start : c1.startDate ≠ none → c1.startDate = c2.startDate
  stop : c1.endDate ≠ none → c1.endDate = c2.endDate
  manual : c1.manual = true → c2.manual = true

theorem refDropList_mono (all : List PyStr) {o1 o2 : Option (List PyStr)}
    (h : o1 ≠ none → o1 = o2) : refDropList all o1 ⊆ refDropList all o2 := by
  cases o1 with
  | none => simp [refDropList]
  | some k =>
    rw [← h (by simp)]
    exact List.Subset.refl _

theorem cohRuleDropList_mono (all : List PyStr) {cb1 cb2 : Bool} (k : Bool) (m : ℚ)
    (c : List ℚ) (mst : List PyStr) (h : cb1 = true → cb2 = true) :
    cohRuleDropList all cb1 k m c mst ⊆ cohRuleDropList all cb2 k m c mst := by
  cases cb1 with
  | false => simp [cohRuleDropList]
  | true =>
    rw [h rfl]
    exact List.Subset.refl _

theorem tbaseDropList_mono (all : List PyStr) (tb : List ℚ) {o1 o2 : Option ℚ}
    (h : o1 ≠ none → o1 = o2) : tbaseDropList all tb o1 ⊆ tbaseDropList all tb o2 := by
  cases o1 with
  | none => simp [tbaseDropList]
  | some t =>
    rw [← h (by simp)]
    exact List.Subset.refl _

theorem pbaseDropList_mono (all : List PyStr) (pb : List ℚ) {o1 o2 : Option ℚ}
    (h : o1 ≠ none → o1 = o2) : pbaseDropList all pb o1 ⊆ pbaseDropList all pb o2 := by
  cases o1 with
  | none => simp [pbaseDropList]
  | some t =>
    rw [← h (by simp)]
    exact List.Subset.refl _

theorem idxDropList_mono (all : List PyStr) {l1 l2 : List Nat}
    (h : l1 = [] ∨ l1 = l2) : idxDropList all l1 ⊆ idxDropList all l2 := by
  rcases h with h | h
  · subst h
    simp [idxDropList]
  · subst h
    exact List.Subset.refl _

theorem excludeDateDropList_mono (all : List PyStr) {l1 l2 : List PyStr}
    (h : l1 = [] ∨ l1 = l2) :
    excludeDateDropList all l1 ⊆ excludeDateDropList all l2 := by
  rcases h with h | h
  · subst h
    intro x hx
    simp [excludeDateDropList, List.mem_filter] at hx
  · subst h
    exact List.Subset.refl _

theorem startDateDropList_mono (all : List PyStr) {o1 o2 : Option Int}
    (h : o1 ≠ none → o1 = o2) :
    startDateDropList all o1 ⊆ startDateDropList all o2 := by
  cases o1 with
  | none => simp [startDateDropList]
  | some d =>
    rw [← h (by simp)]
    exact List.Subset.refl _

theorem endDateDropList_mono (all : List PyStr) {o1 o2 : Option Int}
    (h : o1 ≠ none → o1 = o2) :
    endDateDropList all o1 ⊆ endDateDropList all o2 := by
  cases o1 with
  | none => simp [endDateDropList]
  | some d =>
    rw [← h (by simp)]
    exact List.Subset.refl _

theorem listAppendSubset {α : Type} {a b c d : List α} (h1 : a ⊆ c) (h2 : b ⊆ d) :
    a ++ b ⊆ c ++ d := by
  intro x hx
  rw [List.mem_append] at hx ⊢
  exact hx.imp (fun hh => h1 hh) (fun hh => h2 hh)

theorem accDropList_eq_some {obj : IfgramStack} {c : Inps} {cohList : List ℚ}
    {mst : List PyStr} {manualSel : Option (List PyStr)} {l : List PyStr}
    (h : accDropList obj c cohList mst manualSel = some l) :
    ∃ mp, manualPart obj.date12List c.manual manualSel = some mp ∧
      l = preManualAcc obj c cohList mst ++ mp := by
  unfold accDropList at h
  cases hmp : manualPart obj.date12List c.manual manualSel with
  | none =>
    rw [hmp] at h
    exact absurd h (by simp)
  | some mp =>
    rw [hmp] at h
    simp only [Option.some.injEq] at h
    exact ⟨mp, rfl, h.symm⟩

theorem preManualAcc_mono (obj : IfgramStack) (cohList : List ℚ) (mst : List PyStr)
    {c1 c2 : Inps} (hle : InpsLE c1 c2) :
    preManualAcc obj c1 cohList mst ⊆ preManualAcc obj c2 cohList mst := by
  unfold preManualAcc
  have hcoh : cohRuleDropList obj.date12List c1.coherenceBased c1.keepMinSpanTree
      c1.minCoherence cohList mst ⊆
      cohRuleDropList obj.date12List c2.coherenceBased c2.keepMinSpanTree
      c2.minCoherence cohList mst := by
    rw [hle.minCoh, hle.keepMST]
    exact cohRuleDropList_mono _ _ _ _ _ hle.coh
  exact listAppendSubset
    (listAppendSubset
      (listAppendSubset
        (listAppendSubset
          (listAppendSubset
            (listAppendSubset
              (listAppendSubset (refDropList_mono _ hle.ref) hcoh)
              (tbaseDropList_mono _ _ hle.tbase))
            (pbaseDropList_mono _ _ hle.pbase))
          (idxDropList_mono _ hle.idx))
        (excludeDateDropList_mono _ hle.exDate))
      (startDateDropList_mono _ hle.start))
    (endDateDropList_mono _ hle.stop)

/-- C9: holding the stack, the oracles and all rule parameters fixed,
enabling more rules never shrinks the computed drop set: whenever both
runs produce an accumulated drop list (no manual abort), the sorted
de-duplicated drop set of the smaller criteria is contained in that of
the larger. -/
theorem C9_rule_union_monotone (obj : IfgramStack) (cohList : List ℚ) (mst : List PyStr)
    (manualSel : Option (List PyStr)) (c1 c2 : Inps) (hle : InpsLE c1 c2)
    (l1 l2 : List PyStr)
    (h1 : accDropList obj c1 cohList mst manualSel = some l1)
    (h2 : accDropList obj c2 cohList mst manualSel = some l2) :
    pySortedSet l1 ⊆ pySortedSet l2 := by
  obtain ⟨mp1, hmp1, hl1⟩ := accDropList_eq_some h1
  obtain ⟨mp2, hmp2, hl2⟩ := accDropList_eq_some h2
  have hmp : mp1 ⊆ mp2 := by
    cases hm1 : c1.manual with
    | false =>
      rw [hm1] at hmp1
      have he : manualPart obj.date12List false manualSel = some [] := rfl
      rw [he] at hmp1
      simp only [Option.some.injEq] at hmp1
      rw [← hmp1]
      exact List.nil_subset _
    | true =>
      have hm2 := hle.manual hm1
      rw [hm1] at hmp1
      rw [hm2] at hmp2
      rw [hmp1] at hmp2
      simp only [Option.some.injEq] at hmp2
      rw [hmp2]
      exact List.Subset.refl _
  intro x hx
  rw [mem_pySortedSet] at hx ⊢
  rw [hl1] at hx
  rw [hl2]
  exact listAppendSubset (preManualAcc_mono obj cohList mst hle) hmp hx

/-- The end-to-end stack of spec section 8: three dates, pairs A, B, C
with temporal baselines 31, 29, 60 days. -/
def sampleObj : IfgramStack :=
  { date12List := ["20080101_20080201".toList, "20080201_20080301".toList,
      "20080101_20080301".toList]
    tbaseIfgram := [31, 29, 60]
    pbaseIfgram := [100, -50, 30]
    dropIfgram := [true, true, true] }

def c1Tbase : Inps := { inpsOff with tempBaseMax := some 30 }

def c2TbasePbase : Inps := { inpsOff with tempBaseMax := some 30, perpBaseMax := some 60 }

/-- Witness for C9: on the section-8 stack, the run with only the
temporal-baseline rule drops pairs A and C; adding the
perpendicular-baseline rule keeps them in the drop set. -/
theorem C9_rule_union_monotone_witness :
    "20080101_20080301".toList ∈
      pySortedSet ["20080101_20080201".toList, "20080101_20080301".toList,
        "20080101_20080201".toList] :=
  C9_rule_union_monotone sampleObj [] [] none c1Tbase c2TbasePbase
    ⟨rfl, rfl, fun _ => rfl, fun h => absurd h (by decide),
      fun _ => rfl, fun h => absurd rfl h, Or.inl rfl, Or.inl rfl,
      fun _ => rfl, fun _ => rfl, fun h => absurd h (by decide)⟩
    ["20080101_20080201".toList, "20080101_20080301".toList]
    ["20080101_20080201".toList, "20080101_20080301".toList,
      "20080101_20080201".toList]
    (by decide) (by decide)
    (by decide)
